import Mathlib

/-!
# Formal model of the `hustle` arbitrage engine

A shallow embedding of `src/arbitrage_strategy.py` and `src/risk_manager.py`.

Conventions:
* Python floats are modelled as rationals (`ℚ`); the program only adds,
  subtracts, negates and compares them.
* `datetime.now()` is modelled by explicit `now : Nat` (an instant) and
  `today : Nat` (a calendar date) parameters, passed to each operation.
* Python exceptions are modelled explicitly: a function that can raise
  returns `Except String _`, or a `_ × Option String` pair when the partial
  mutations performed before the raise must be kept (Python mutates objects
  in place, so field assignments made before an exception persist).
* Mutation of `self` is modelled by returning the updated record.
-/

namespace Hustle

/-- Model of `StrategyStatus` enum of `arbitrage_strategy.py`. -/
inductive StrategyStatus where
  | idle
  | opening
  | opened
  | closing
  | closed
  | chasing
deriving DecidableEq

/-- A tick payload: a Python dict on which `.get('bid')` / `.get('ask')`
is called; absent keys yield `None`. -/
structure Tick where
  bid : Option ℚ
  ask : Option ℚ
deriving DecidableEq

/-- Model of `SpreadData` of `arbitrage_strategy.py` (the spec calls it
`SpreadSnapshot`): last-known quotes of both venues plus the two cached
spreads.  All fields start as `None` in `__init__`. -/
structure SpreadData where
  bybit_bid : Option ℚ
  bybit_ask : Option ℚ
  binance_bid : Option ℚ
  binance_ask : Option ℚ
  spread_positive : Option ℚ
  spread_negative : Option ℚ
  last_update : Option Nat
deriving DecidableEq

/-- Model of `SpreadData.__init__`: every field is `None`. -/
def SpreadData.init : SpreadData :=
  ⟨none, none, none, none, none, none, none⟩

/-- An actual argument passed where `SpreadData.update` expects a dict.
`_process_bybit_tick` / `_process_binance_tick` pass the live `SpreadData`
object itself as the other venue's "tick"; a `SpreadData` instance has no
`get` method, so calling `.get` on it raises `AttributeError`. -/
inductive TickArg where
  | dict (t : Tick)
  | obj (s : SpreadData)
deriving DecidableEq

/-- Python `arg.get('bid')`: succeeds on a dict, raises `AttributeError` on a
`SpreadData` instance. -/
def TickArg.get_bid : TickArg → Except String (Option ℚ)
  | .dict t => .ok t.bid
  | .obj _ => .error "AttributeError: SpreadData object has no attribute get"

/-- Python `arg.get('ask')`: succeeds on a dict, raises `AttributeError` on a
`SpreadData` instance. -/
def TickArg.get_ask : TickArg → Except String (Option ℚ)
  | .dict t => .ok t.ask
  | .obj _ => .error "AttributeError: SpreadData object has no attribute get"

/-- Model of `SpreadData.update(bybit_tick, binance_tick)`.  Field assignments are
performed in source order; if a `.get` raises, the assignments already made
persist on the object, so the result is the partially updated state paired
with the error. -/
def SpreadData.update (s : SpreadData) (bybit_tick binance_tick : TickArg)
    (now : Nat) : SpreadData × Option String :=
  match bybit_tick.get_bid with
  | .error e => (s, some e)
  | .ok v1 =>
  let s1 := { s with bybit_bid := v1 }
  match bybit_tick.get_ask with
  | .error e => (s1, some e)
  | .ok v2 =>
  let s2 := { s1 with bybit_ask := v2 }
  match binance_tick.get_bid with
  | .error e => (s2, some e)
  | .ok v3 =>
  let s3 := { s2 with binance_bid := v3 }
  match binance_tick.get_ask with
  | .error e => (s3, some e)
  | .ok v4 =>
  let s4 := { s3 with binance_ask := v4 }
  let s5 := { s4 with last_update := some now }
  let s6 := match s5.bybit_ask, s5.binance_bid with
    | some a, some b => { s5 with spread_positive := some (a - b) }
    | _, _ => s5
  let s7 := match s6.binance_ask, s6.bybit_bid with
    | some a, some b => { s6 with spread_negative := some (a - b) }
    | _, _ => s6
  (s7, none)

/-- Model of `SpreadData.is_valid`: all four quotes present. -/
def SpreadData.is_valid (s : SpreadData) : Bool :=
  s.bybit_bid.isSome && s.bybit_ask.isSome && s.binance_bid.isSome && s.binance_ask.isSome

/-! ## Risk manager (`src/risk_manager.py`) -/

/-- The rule-specific data of each concrete `RiskRule` subclass.  The
`dailyLoss` constructor carries the mutable running total `daily_pnl` and
the `reset_date`. -/
inductive RiskRuleKind where
  | maxPosition (max_position : ℚ)
  | maxOrderSize (max_order_size : ℚ)
  | dailyLoss (max_daily_loss daily_pnl : ℚ) (reset_date : Nat)
  | maxChase (max_chase_count : Int)
deriving DecidableEq

/-- The common `RiskRule` state plus the subclass data. -/
structure RiskRule where
  enabled : Bool
  violations : Nat
  last_violation_time : Option Nat
  kind : RiskRuleKind
deriving DecidableEq

/-- Model of `RiskRule.name`, fixed per subclass by each `__init__`. -/
def RiskRule.name (r : RiskRule) : String :=
  match r.kind with
  | .maxPosition _ => "Max Position Risk"
  | .maxOrderSize _ => "Max Order Size Risk"
  | .dailyLoss _ _ _ => "Daily Loss Risk"
  | .maxChase _ => "Max Chase Order Risk"

/-- Model of `RiskRule.record_violation`. -/
def RiskRule.record_violation (r : RiskRule) (now : Nat) : RiskRule :=
  { r with violations := r.violations + 1, last_violation_time := some now }

/-- The keyword arguments a manager-level check passes to `rule.check`.
`check_order` passes `order_size` and `current_position`; `check_trade`
passes `trade_pnl` and `chase_count`; `check_chase_order` passes only
`chase_count`.  (`account_id` is also passed by the first two but ignored
by every rule via `**kwargs`.) -/
structure CheckKwargs where
  order_size : Option ℚ
  current_position : Option ℚ
  trade_pnl : Option ℚ
  chase_count : Option Int
deriving DecidableEq

/-- Model of `rule.check(**kwargs)` for each concrete rule.  A missing required
keyword argument raises `TypeError` at call binding, before the body runs
(so even a disabled rule raises).  `DailyLossRiskRule.check` mutates
`daily_pnl` (and possibly `reset_date`); the updated rule is returned. -/
def RiskRule.check (r : RiskRule) (kw : CheckKwargs) (today : Nat) :
    Except String ((Bool × String) × RiskRule) :=
  match r.kind with
  | .maxPosition mx =>
    match kw.current_position with
    | none => .error "TypeError: check missing required argument current_position"
    | some cp =>
      if r.enabled = false then .ok ((true, ""), r)
      else if mx ≤ |cp| then
        .ok ((false, "Position " ++ toString cp ++ " exceeds max " ++ toString mx), r)
      else .ok ((true, ""), r)
  | .maxOrderSize mx =>
    match kw.order_size with
    | none => .error "TypeError: check missing required argument order_size"
    | some os =>
      if r.enabled = false then .ok ((true, ""), r)
      else if mx < |os| then
        .ok ((false, "Order size " ++ toString os ++ " exceeds max " ++ toString mx), r)
      else .ok ((true, ""), r)
  | .dailyLoss mx pnl rd =>
    let tp := kw.trade_pnl.getD 0
    if r.enabled = false then .ok ((true, ""), r)
    else
      let pnl1 : ℚ := if today ≠ rd then 0 else pnl
      let rd1 : Nat := if today ≠ rd then today else rd
      let pnl2 := pnl1 + tp
      let r' := { r with kind := .dailyLoss mx pnl2 rd1 }
      if pnl2 < -mx then
        .ok ((false, "Daily loss " ++ toString pnl2 ++ " exceeds max " ++ toString mx), r')
      else .ok ((true, ""), r')
  | .maxChase mx =>
    match kw.chase_count with
    | none => .error "TypeError: check missing required argument chase_count"
    | some cc =>
      if r.enabled = false then .ok ((true, ""), r)
      else if mx ≤ cc then
        .ok ((false, "Chase count " ++ toString cc ++ " exceeds max " ++ toString mx), r)
      else .ok ((true, ""), r)

/-- Holds when `rule.check` reports failure (returns `(False, msg)` without raising). -/
def RuleFailsB (kw : CheckKwargs) (today : Nat) (r : RiskRule) : Bool :=
  match r.check kw today with
  | .ok ((false, _), _) => true
  | _ => false

/-- A recorded risk event (`RiskManager._record_risk_event`). -/
structure RiskEvent where
  timestamp : Nat
  account_id : String
  rule : String
  message : String
deriving DecidableEq

/-- Model of `RiskManager` state. -/
structure RiskManager where
  rules : List RiskRule
  enabled : Bool
  risk_events : List RiskEvent
  max_event_history : Nat
deriving DecidableEq

/-- Model of `RiskManager.__init__`. -/
def RiskManager.init : RiskManager :=
  ⟨[], true, [], 100⟩

/-- The shared rule loop of `check_order` / `check_trade` /
`check_chase_order`: walk the rules in registration order; a raising rule
is caught, logged and skipped; a passing rule contributes its (possibly
mutated) state; the first failing rule gets `record_violation`, the loop
stops and `(rule.name, message)` is reported.  Returns the updated rule
list and the first failure, if any. -/
def runRules (kw : CheckKwargs) (now today : Nat) :
    List RiskRule → List RiskRule × Option (String × String)
  | [] => ([], none)
  | r :: rs =>
    match r.check kw today with
    | .error _ =>
      let p := runRules kw now today rs
      (r :: p.1, p.2)
    | .ok ((true, _), r') =>
      let p := runRules kw now today rs
      (r' :: p.1, p.2)
    | .ok ((false, msg), r') =>
      (r'.record_violation now :: rs, some (r'.name, msg))

/-- Model of `RiskManager._record_risk_event`: append, then keep only the last
`max_event_history` entries (Python slice `events[-max:]`, which keeps
everything when `max = 0`). -/
def RiskManager.record_risk_event (m : RiskManager) (now : Nat)
    (account_id rule_name message : String) : RiskManager :=
  let events := m.risk_events ++ [⟨now, account_id, rule_name, message⟩]
  let events2 :=
    if m.max_event_history < events.length then
      if m.max_event_history = 0 then events
      else events.drop (events.length - m.max_event_history)
    else events
  { m with risk_events := events2 }

/-- The common body of the three manager checks: the enabled guard, the
rule loop, and on failure the event recording. -/
def RiskManager.run_check (m : RiskManager) (kw : CheckKwargs)
    (now today : Nat) (account_id : String) : (Bool × String) × RiskManager :=
  if m.enabled = false then ((true, ""), m)
  else
    match runRules kw now today m.rules with
    | (rules', none) => ((true, ""), { m with rules := rules' })
    | (rules', some (rname, msg)) =>
      ((false, msg), RiskManager.record_risk_event { m with rules := rules' }
        now account_id rname msg)

/-- Model of `RiskManager.check_order(account_id, order_size, current_position)`. -/
def RiskManager.check_order (m : RiskManager) (now today : Nat)
    (account_id : String) (order_size current_position : ℚ) :
    (Bool × String) × RiskManager :=
  m.run_check ⟨some order_size, some current_position, none, none⟩ now today account_id

/-- Model of `RiskManager.check_trade(account_id, trade_pnl, chase_count)`. -/
def RiskManager.check_trade (m : RiskManager) (now today : Nat)
    (account_id : String) (trade_pnl : ℚ) (chase_count : Int) :
    (Bool × String) × RiskManager :=
  m.run_check ⟨none, none, some trade_pnl, some chase_count⟩ now today account_id

/-- Model of `RiskManager.check_chase_order(account_id, chase_count)`. -/
def RiskManager.check_chase_order (m : RiskManager) (now today : Nat)
    (account_id : String) (chase_count : Int) : (Bool × String) × RiskManager :=
  m.run_check ⟨none, none, none, some chase_count⟩ now today account_id

/-- The limits read by `configure_default_rules` from its config dict.
An absent key models `config.get(...)` returning `None`. -/
structure RiskConfig where
  max_position : Option ℚ
  max_order_size : Option ℚ
  max_daily_loss : Option ℚ
  max_chase_count : Option Int
deriving DecidableEq

/-- Model of `RiskManager.configure_default_rules(config)`: clear all rules, then
register one rule per limit whose configured value is truthy (`None` and
`0` are falsy in Python, so such limits register nothing).  A fresh
`DailyLossRiskRule` starts with `daily_pnl = 0` and `reset_date = today`. -/
def RiskManager.configure_default_rules (m : RiskManager) (cfg : RiskConfig)
    (today : Nat) : RiskManager :=
  let r1 : List RiskRule :=
    match cfg.max_position with
    | some v => if v = 0 then [] else [⟨true, 0, none, .maxPosition v⟩]
    | none => []
  let r2 : List RiskRule :=
    match cfg.max_order_size with
    | some v => if v = 0 then [] else [⟨true, 0, none, .maxOrderSize v⟩]
    | none => []
  let r3 : List RiskRule :=
    match cfg.max_daily_loss with
    | some v => if v = 0 then [] else [⟨true, 0, none, .dailyLoss v 0 today⟩]
    | none => []
  let r4 : List RiskRule :=
    match cfg.max_chase_count with
    | some v => if v = 0 then [] else [⟨true, 0, none, .maxChase v⟩]
    | none => []
  { m with rules := r1 ++ r2 ++ r3 ++ r4 }

/-! ## Arbitrage strategy (`src/arbitrage_strategy.py`) -/

/-- Model of `ArbitragePair` state (account-id strings live in `StrategyParams`).
The `spread_data` object is owned by the pair. -/
structure ArbitragePair where
  status : StrategyStatus
  spread_data : SpreadData
  bybit_position : ℚ
  binance_position : ℚ
  bybit_order_id : Option Nat
  binance_order_id : Option Nat
  bybit_trade_filled : Bool
  binance_trade_filled : Bool
  unilateral_trade_flag : Bool
  chase_order_count : Nat
  open_time : Option Nat
  close_time : Option Nat
  pnl : ℚ
deriving DecidableEq

/-- Model of `ArbitragePair.__init__`. -/
def ArbitragePair.init : ArbitragePair :=
  ⟨.idle, SpreadData.init, 0, 0, none, none, false, false, false, 0, none, none, 0⟩

/-- Model of `ArbitragePair.reset`: everything back to the initial values except
`spread_data`, which `reset` does not touch. -/
def ArbitragePair.reset (pr : ArbitragePair) : ArbitragePair :=
  { pr with
    status := .idle, bybit_position := 0, binance_position := 0,
    bybit_order_id := none, binance_order_id := none,
    bybit_trade_filled := false, binance_trade_filled := false,
    unilateral_trade_flag := false, chase_order_count := 0,
    open_time := none, close_time := none, pnl := 0 }

/-- The immutable configuration of an `ArbitrageStrategy` (ids and the
tunable parameters; `max_chase_count` is stored by the strategy but never
read by its logic — the chase ceiling lives in the risk rule). -/
structure StrategyParams where
  strategy_id : String
  bybit_account_id : String
  binance_account_id : String
  open_threshold : ℚ
  close_threshold : ℚ
  order_size : ℚ
  max_chase_count : Nat
  trade_timeout : Int
deriving DecidableEq

/-- One invocation of the `order_callback`: the positional arguments
`(account_id, direction, price, qty)` plus the optional fifth argument
used for cancels. -/
structure OrderReq where
  account_id : String
  direction : String
  price : ℚ
  qty : ℚ
  cancel_id : Option Nat
deriving DecidableEq

/-- The environment behind `order_callback`: it records every invocation
and hands out fresh order ids (starting from 1, so ids are never the
falsy Python int `0`). -/
structure ExecState where
  submitted : List OrderReq
  next_id : Nat
deriving DecidableEq

/-- Model of `ExecState.__init__`-analogue: nothing submitted, ids start at 1. -/
def ExecState.init : ExecState := ⟨[], 1⟩

/-- Invoke the order callback: record the request, return a fresh id. -/
def ExecState.submit (es : ExecState) (req : OrderReq) : Nat × ExecState :=
  (es.next_id, ⟨es.submitted ++ [req], es.next_id + 1⟩)

/-- The mutable state an `ArbitrageStrategy` closes over: its pair, its
risk manager, and the order-callback environment. -/
structure StrategyState where
  pair : ArbitragePair
  rm : RiskManager
  es : ExecState
deriving DecidableEq

/-- Model of `_process_bybit_tick`: calls `spread_data.update(tick_data,
self.spread_data)` — the second argument is the `SpreadData` object
itself, not a dict.  (Passing the pre-call snapshot is equivalent to the
aliased live object because `.get` on it raises before reading any
field.) -/
def process_bybit_tick (sd : SpreadData) (tick : Tick) (now : Nat) :
    SpreadData × Option String :=
  sd.update (.dict tick) (.obj sd) now

/-- Model of `_process_binance_tick`: calls `spread_data.update(self.spread_data,
tick_data)`. -/
def process_binance_tick (sd : SpreadData) (tick : Tick) (now : Nat) :
    SpreadData × Option String :=
  sd.update (.obj sd) (.dict tick) now

/-- Model of `_cancel_all_orders`: for each non-null order id, invoke the callback
with `('cancel', 0, 0, order_id)` and null the id.  (Order ids issued by
our callback model start at 1, so the Python truthiness test
`if pair.bybit_order_id:` coincides with the `is not None` test.) -/
def cancel_all_orders (p : StrategyParams) (st : StrategyState) : StrategyState :=
  let st1 :=
    match st.pair.bybit_order_id with
    | some oid =>
      let q := st.es.submit ⟨p.bybit_account_id, "cancel", 0, 0, some oid⟩
      { st with es := q.2, pair := { st.pair with bybit_order_id := none } }
    | none => st
  match st1.pair.binance_order_id with
  | some oid =>
    let q := st1.es.submit ⟨p.binance_account_id, "cancel", 0, 0, some oid⟩
    { st1 with es := q.2, pair := { st1.pair with binance_order_id := none } }
  | none => st1

/-- Model of `_execute_open_positive`: risk-check the bybit leg (size
`-order_size`), then the binance leg (size `order_size`); on any denial
return with only the risk manager's bookkeeping changed.  Otherwise place
a bybit sell at `ask - 0.01` and a binance buy at `bid + 0.01`, record the
ids, and move to OPENING.  A missing quote would raise `TypeError` on the
price arithmetic (this happens after the risk checks; the caller guards
with `is_valid`). -/
def execute_open_positive (p : StrategyParams) (now today : Nat)
    (st : StrategyState) : Except String StrategyState :=
  let c1 := st.rm.check_order now today p.bybit_account_id (-p.order_size) 0
  if c1.1.1 = false then .ok { st with rm := c1.2 }
  else
    let c2 := c1.2.check_order now today p.binance_account_id p.order_size 0
    if c2.1.1 = false then .ok { st with rm := c2.2 }
    else
      match st.pair.spread_data.bybit_ask, st.pair.spread_data.binance_bid with
      | some ba, some nb =>
        let q1 := st.es.submit ⟨p.bybit_account_id, "sell", ba - 1/100, p.order_size, none⟩
        let q2 := q1.2.submit ⟨p.binance_account_id, "buy", nb + 1/100, p.order_size, none⟩
        .ok { st with
          rm := c2.2,
          pair := { st.pair with
            bybit_order_id := some q1.1,
            binance_order_id := some q2.1, status := .opening,
            open_time := some now, bybit_trade_filled := false,
            binance_trade_filled := false },
          es := q2.2 }
      | _, _ => .error "TypeError: unsupported operand for NoneType"

/-- Model of `_execute_open_negative`: mirror image — risk-check the binance leg
first (size `-order_size`) then the bybit leg; place a binance sell at
`ask - 0.01` and a bybit buy at `bid + 0.01`. -/
def execute_open_negative (p : StrategyParams) (now today : Nat)
    (st : StrategyState) : Except String StrategyState :=
  let c1 := st.rm.check_order now today p.binance_account_id (-p.order_size) 0
  if c1.1.1 = false then .ok { st with rm := c1.2 }
  else
    let c2 := c1.2.check_order now today p.bybit_account_id p.order_size 0
    if c2.1.1 = false then .ok { st with rm := c2.2 }
    else
      match st.pair.spread_data.binance_ask, st.pair.spread_data.bybit_bid with
      | some na, some bb =>
        let q1 := st.es.submit ⟨p.binance_account_id, "sell", na - 1/100, p.order_size, none⟩
        let q2 := q1.2.submit ⟨p.bybit_account_id, "buy", bb + 1/100, p.order_size, none⟩
        .ok { st with
          rm := c2.2,
          pair := { st.pair with
            binance_order_id := some q1.1,
            bybit_order_id := some q2.1, status := .opening,
            open_time := some now, bybit_trade_filled := false,
            binance_trade_filled := false },
          es := q2.2 }
      | _, _ => .error "TypeError: unsupported operand for NoneType"

/-- Model of `_execute_close_positive`: no risk checks; bybit buy at `bid + 0.01`,
binance sell at `ask - 0.01`; move to CLOSING. -/
def execute_close_positive (p : StrategyParams) (now : Nat)
    (st : StrategyState) : Except String StrategyState :=
  match st.pair.spread_data.bybit_bid, st.pair.spread_data.binance_ask with
  | some bb, some na =>
    let q1 := st.es.submit ⟨p.bybit_account_id, "buy", bb + 1/100, p.order_size, none⟩
    let q2 := q1.2.submit ⟨p.binance_account_id, "sell", na - 1/100, p.order_size, none⟩
    .ok { st with
      pair := { st.pair with
        bybit_order_id := some q1.1,
        binance_order_id := some q2.1, status := .closing,
        close_time := some now, bybit_trade_filled := false,
        binance_trade_filled := false },
      es := q2.2 }
  | _, _ => .error "TypeError: unsupported operand for NoneType"

/-- Model of `_execute_close_negative`: binance buy at `bid + 0.01`, bybit sell at
`ask - 0.01`; move to CLOSING. -/
def execute_close_negative (p : StrategyParams) (now : Nat)
    (st : StrategyState) : Except String StrategyState :=
  match st.pair.spread_data.binance_bid, st.pair.spread_data.bybit_ask with
  | some nb, some ba =>
    let q1 := st.es.submit ⟨p.binance_account_id, "buy", nb + 1/100, p.order_size, none⟩
    let q2 := q1.2.submit ⟨p.bybit_account_id, "sell", ba - 1/100, p.order_size, none⟩
    .ok { st with
      pair := { st.pair with
        binance_order_id := some q1.1,
        bybit_order_id := some q2.1, status := .closing,
        close_time := some now, bybit_trade_filled := false,
        binance_trade_filled := false },
      es := q2.2 }
  | _, _ => .error "TypeError: unsupported operand for NoneType"

/-- Model of `_execute_chase_order(platform, original_time)`: gate on
`check_chase_order(strategy_id, chase_order_count + 1)`; on denial return
with only the risk manager changed.  Otherwise cancel both outstanding
orders, pick the chase price from the venue's stored quote (bid when that
venue's position is positive, ask otherwise), give up if it is `None`,
else submit the replacement, store its id, set the unilateral flag and
increment `chase_order_count`. -/
def execute_chase_order (p : StrategyParams) (platform : String)
    (now today : Nat) (st : StrategyState) : StrategyState :=
  let c := st.rm.check_chase_order now today p.strategy_id
    ((st.pair.chase_order_count : Int) + 1)
  if c.1.1 = false then { st with rm := c.2 }
  else
    let st1 := cancel_all_orders p { st with rm := c.2 }
    let pair := st1.pair
    let spread := pair.spread_data
    let price : Option ℚ :=
      if platform = "bybit" then
        if 0 < pair.bybit_position then spread.bybit_bid else spread.bybit_ask
      else if platform = "binance" then
        if 0 < pair.binance_position then spread.binance_bid else spread.binance_ask
      else none
    match price with
    | none => st1
    | some pr =>
      let account_id := if platform = "bybit" then p.bybit_account_id else p.binance_account_id
      let direction :=
        if 0 < pair.bybit_position ∨ 0 < pair.binance_position then "buy" else "sell"
      let q := st1.es.submit ⟨account_id, direction, pr, p.order_size, none⟩
      let pair2 :=
        if platform = "bybit" then { pair with bybit_order_id := some q.1 }
        else { pair with binance_order_id := some q.1 }
      { st1 with
        es := q.2,
        pair := { pair2 with
          unilateral_trade_flag := true,
          chase_order_count := pair2.chase_order_count + 1 } }

/-- Model of `_handle_trade_timeout`: chase the unfilled leg when exactly one leg
filled; when neither filled, cancel everything and fall back to IDLE;
when both filled (fills raced the timeout), do nothing. -/
def handle_trade_timeout (p : StrategyParams) (now today : Nat)
    (st : StrategyState) : StrategyState :=
  if st.pair.bybit_trade_filled = true ∧ st.pair.binance_trade_filled = false then
    execute_chase_order p "binance" now today st
  else if st.pair.binance_trade_filled = true ∧ st.pair.bybit_trade_filled = false then
    execute_chase_order p "bybit" now today st
  else if st.pair.bybit_trade_filled = false ∧ st.pair.binance_trade_filled = false then
    let st1 := cancel_all_orders p st
    { st1 with pair := { st1.pair with status := .idle } }
  else st

/-- Model of `_check_trade_timeout`: when OPENING (resp. CLOSING) and the open
(resp. close) timestamp is at least `trade_timeout` seconds old, handle
the timeout. -/
def check_trade_timeout (p : StrategyParams) (now today : Nat)
    (st : StrategyState) : StrategyState :=
  if st.pair.status = .opening then
    match st.pair.open_time with
    | some t => if p.trade_timeout ≤ (now : Int) - (t : Int) then
        handle_trade_timeout p now today st else st
    | none => st
  else if st.pair.status = .closing then
    match st.pair.close_time with
    | some t => if p.trade_timeout ≤ (now : Int) - (t : Int) then
        handle_trade_timeout p now today st else st
    | none => st
  else st

/-- Python `a or b or 0.0` on two optional floats: the first operand that
is neither `None` nor `0.0`, else `0.0`. -/
def pyOrQ (a b : Option ℚ) : ℚ :=
  match a with
  | some x => if x ≠ 0 then x else match b with
    | some y => if y ≠ 0 then y else 0
    | none => 0
  | none => match b with
    | some y => if y ≠ 0 then y else 0
    | none => 0

/-- Model of `_check_both_filled`: once both legs report filled, OPENING becomes
OPENED; CLOSING becomes CLOSED with `pnl = spread_positive or
spread_negative or 0.0` followed by a `check_trade` (whose verdict is only
logged).  Either way the unilateral flag and the chase counter are
cleared. -/
def check_both_filled (p : StrategyParams) (now today : Nat)
    (st : StrategyState) : StrategyState :=
  if st.pair.bybit_trade_filled = true ∧ st.pair.binance_trade_filled = true then
    if st.pair.status = .opening then
      { st with pair := { st.pair with
        status := .opened,
        unilateral_trade_flag := false, chase_order_count := 0 } }
    else if st.pair.status = .closing then
      let pnl := pyOrQ st.pair.spread_data.spread_positive st.pair.spread_data.spread_negative
      let c := st.rm.check_trade now today p.strategy_id pnl
        (st.pair.chase_order_count : Int)
      { st with
        rm := c.2,
        pair := { st.pair with
          status := .closed, pnl := pnl,
          unilateral_trade_flag := false, chase_order_count := 0 } }
    else
      { st with pair := { st.pair with
        unilateral_trade_flag := false, chase_order_count := 0 } }
  else st

/-- Model of `on_trade(platform, trade_data)` (with the strategy enabled): mark the
venue's leg filled, take the venue position from `trade_data.get('position',
current)`, then run `_check_both_filled`. -/
def on_trade (p : StrategyParams) (platform : String) (position : Option ℚ)
    (now today : Nat) (st : StrategyState) : StrategyState :=
  let pair :=
    if platform = "bybit" then
      { st.pair with
        bybit_trade_filled := true,
        bybit_position := position.getD st.pair.bybit_position }
    else if platform = "binance" then
      { st.pair with
        binance_trade_filled := true,
        binance_position := position.getD st.pair.binance_position }
    else st.pair
  check_both_filled p now today { st with pair := pair }

/-- Model of `_check_open_conditions`: open positive when `spread_positive ≥
open_threshold`, else open negative when `spread_negative ≤
-open_threshold`. -/
def check_open_conditions (p : StrategyParams) (now today : Nat)
    (st : StrategyState) : Except String StrategyState :=
  match st.pair.spread_data.spread_positive with
  | some sp =>
    if p.open_threshold ≤ sp then execute_open_positive p now today st
    else
      match st.pair.spread_data.spread_negative with
      | some sn =>
        if sn ≤ -p.open_threshold then execute_open_negative p now today st
        else .ok st
      | none => .ok st
  | none =>
    match st.pair.spread_data.spread_negative with
    | some sn =>
      if sn ≤ -p.open_threshold then execute_open_negative p now today st
      else .ok st
    | none => .ok st

/-- Model of `_check_close_conditions`: dispatch on the signs of the two venue
positions, then compare the matching spread against the close threshold. -/
def check_close_conditions (p : StrategyParams) (now : Nat)
    (st : StrategyState) : Except String StrategyState :=
  if 0 < st.pair.bybit_position ∧ st.pair.binance_position < 0 then
    match st.pair.spread_data.spread_positive with
    | some sp => if sp ≤ p.close_threshold then execute_close_positive p now st else .ok st
    | none => .ok st
  else if st.pair.bybit_position < 0 ∧ 0 < st.pair.binance_position then
    match st.pair.spread_data.spread_negative with
    | some sn => if -p.close_threshold ≤ sn then execute_close_negative p now st else .ok st
    | none => .ok st
  else .ok st

/-- Model of `_check_conditions`: nothing unless the snapshot is valid; then
dispatch on the status. -/
def check_conditions (p : StrategyParams) (now today : Nat)
    (st : StrategyState) : Except String StrategyState :=
  if st.pair.spread_data.is_valid = false then .ok st
  else if st.pair.status = .idle then check_open_conditions p now today st
  else if st.pair.status = .opened then check_close_conditions p now st
  else if st.pair.status = .opening ∨ st.pair.status = .closing then
    .ok (check_trade_timeout p now today st)
  else .ok st

/-- Model of `update_tick(platform, tick_data)`: skip when disabled or not in auto
mode; otherwise route the tick to the per-venue processor and, if it did
not raise, run `_check_conditions`.  An exception leaves the partial
mutations of the spread snapshot in place and propagates (so
`_check_conditions` is skipped). -/
def update_tick (p : StrategyParams) (platform : String) (tick : Tick)
    (now today : Nat) (enabled auto_mode : Bool) (st : StrategyState) :
    StrategyState × Option String :=
  if enabled = false ∨ auto_mode = false then (st, none)
  else
    let step : StrategyState × Option String :=
      if platform = "bybit" then
        let r := process_bybit_tick st.pair.spread_data tick now
        ({ st with pair := { st.pair with spread_data := r.1 } }, r.2)
      else if platform = "binance" then
        let r := process_binance_tick st.pair.spread_data tick now
        ({ st with pair := { st.pair with spread_data := r.1 } }, r.2)
      else (st, none)
    match step with
    | (st1, some e) => (st1, some e)
    | (st1, none) =>
      match check_conditions p now today st1 with
      | .ok st2 => (st2, none)
      | .error e => (st1, some e)

/-- One state transition by the operations named in the spec's invariant:
a tick-driven conditions pass (which performs opens, closes and
timeout/chase handling), a fill callback, or a reset. -/
inductive Step (p : StrategyParams) : StrategyState → StrategyState → Prop where
  | conditions (now today : Nat) (st st' : StrategyState) :
      check_conditions p now today st = .ok st' → Step p st st'
  | trade (platform : String) (position : Option ℚ) (now today : Nat)
      (st : StrategyState) : Step p st (on_trade p platform position now today st)
  | reset (st : StrategyState) :
      Step p st { st with pair := st.pair.reset }

/-- Reachability by strategy operations from a given start state. -/
inductive Reach (p : StrategyParams) : StrategyState → StrategyState → Prop where
  | refl (st : StrategyState) : Reach p st st
  | tail (a b c : StrategyState) : Reach p a b → Step p b c → Reach p a c

/-- The order-id/status relation that actually holds: pending order ids
are always null in IDLE.  (In OPENED and CLOSED they may remain set.) -/
def OrderIdInv (st : StrategyState) : Prop :=
  st.pair.status = .idle →
    st.pair.bybit_order_id = none ∧ st.pair.binance_order_id = none

/-! ## Theorems -/

/-- C5 (counterexample).  The claim says `spread_AB` (= `spread_positive`)
and `spread_BA` (= `spread_negative`) are `None` unless all four quotes
are present.  False: updating the fresh snapshot with a bybit tick that
has only an ask and a binance tick that has only a bid yields
`spread_positive = some (101 - 99)` while `bybit_bid` and `binance_ask`
are still `None`. -/
theorem C5_counterexample :
    (SpreadData.init.update (.dict ⟨none, some 101⟩) (.dict ⟨some 99, none⟩) 0).1.spread_positive
      = some (101 - 99)
    ∧ (SpreadData.init.update (.dict ⟨none, some 101⟩) (.dict ⟨some 99, none⟩) 0).1.spread_positive
      ≠ none
    ∧ (SpreadData.init.update (.dict ⟨none, some 101⟩) (.dict ⟨some 99, none⟩) 0).1.bybit_bid
      = none
    ∧ (SpreadData.init.update (.dict ⟨none, some 101⟩) (.dict ⟨some 99, none⟩) 0).1.binance_ask
      = none
    ∧ (SpreadData.init.update (.dict ⟨none, some 101⟩) (.dict ⟨some 99, none⟩) 0).1.is_valid
      = false :=
  ⟨rfl, by decide, rfl, rfl, rfl⟩

/-- C5 (amended).  What `SpreadData.update` actually guarantees on dict
inputs: no exception; the four quote fields are overwritten with the tick
values; `spread_positive` is recomputed to `bybit_ask - binance_bid`
exactly when both of those (new) quotes are present, and otherwise keeps
its previous (possibly stale) value; symmetrically `spread_negative` is
`binance_ask - bybit_bid` when both are present.  In particular a spread
can be non-`None` when fewer than all four quotes are present. -/
theorem C5_spread_update_characterization (s : SpreadData) (t1 t2 : Tick) (now : Nat) :
    (s.update (.dict t1) (.dict t2) now).2 = none
    ∧ (s.update (.dict t1) (.dict t2) now).1.bybit_bid = t1.bid
    ∧ (s.update (.dict t1) (.dict t2) now).1.bybit_ask = t1.ask
    ∧ (s.update (.dict t1) (.dict t2) now).1.binance_bid = t2.bid
    ∧ (s.update (.dict t1) (.dict t2) now).1.binance_ask = t2.ask
    ∧ (s.update (.dict t1) (.dict t2) now).1.spread_positive
        = (match t1.ask, t2.bid with
           | some a, some b => some (a - b)
           | _, _ => s.spread_positive)
    ∧ (s.update (.dict t1) (.dict t2) now).1.spread_negative
        = (match t2.ask, t1.bid with
           | some a, some b => some (a - b)
           | _, _ => s.spread_negative) := by
  cases ha : t1.ask <;> cases hb : t2.bid <;> cases hc : t2.ask <;> cases hd : t1.bid <;>
    simp [SpreadData.update, TickArg.get_bid, TickArg.get_ask, ha, hb, hc, hd]

/-- A successful `rule.check` never touches the rule's name, enabled flag,
violation counter or last-violation time (only `DailyLossRiskRule` mutates
its kind parameters). -/
lemma RiskRule.check_preserves_meta {r r' : RiskRule} {kw : CheckKwargs} {today : Nat}
    {res : Bool × String} (h : r.check kw today = .ok (res, r')) :
    r'.name = r.name ∧ r'.violations = r.violations ∧ r'.enabled = r.enabled ∧
      r'.last_violation_time = r.last_violation_time := by
  cases hk : r.kind <;> simp only [RiskRule.check, hk] at h <;>
    (repeat' split at h) <;>
    (try simp_all [RiskRule.name]) <;>
    (obtain ⟨h1, h2⟩ := h; subst h2; simp_all [RiskRule.name])

/-- The rule loop preserves the number of registered rules. -/
lemma runRules_length (kw : CheckKwargs) (now today : Nat) (l : List RiskRule) :
    (runRules kw now today l).1.length = l.length := by
  induction l with
  | nil => rfl
  | cons r rs ih =>
    rw [runRules]
    cases h : r.check kw today with
    | error e => simpa using ih
    | ok val =>
      obtain ⟨⟨b, msg⟩, r'⟩ := val
      cases b <;> simp [ih]

/-- If no rule of a prefix fails, the loop walks the whole prefix and then
continues into the rest, and the final rule list splits accordingly. -/
lemma runRules_append_nofail (kw : CheckKwargs) (now today : Nat)
    (pre rest : List RiskRule)
    (hpre : ∀ q ∈ pre, RuleFailsB kw today q = false) :
    runRules kw now today (pre ++ rest)
      = ((runRules kw now today pre).1 ++ (runRules kw now today rest).1,
         (runRules kw now today rest).2) := by
  induction pre with
  | nil => simp [runRules]
  | cons q qs ih =>
    have hq := hpre q (by simp)
    have hqs : ∀ x ∈ qs, RuleFailsB kw today x = false := fun x hx => hpre x (by simp [hx])
    rw [List.cons_append, runRules, runRules]
    cases h : q.check kw today with
    | error e => simp [ih hqs]
    | ok val =>
      obtain ⟨⟨b, msg⟩, q'⟩ := val
      cases b with
      | false => simp [RuleFailsB, h] at hq
      | true => simp [ih hqs]

/-- A rule whose `check` raises is skipped: the loop behaves as if the
rule were absent, with the raising rule left unchanged in place. -/
lemma runRules_skip (kw : CheckKwargs) (now today : Nat) (r : RiskRule)
    (e : String) (hr : r.check kw today = .error e) (pre post : List RiskRule) :
    ∃ l₁ l₂,
      runRules kw now today (pre ++ post)
        = (l₁ ++ l₂, (runRules kw now today (pre ++ r :: post)).2)
      ∧ l₁.length = pre.length
      ∧ (runRules kw now today (pre ++ r :: post)).1 = l₁ ++ r :: l₂ := by
  induction pre with
  | nil =>
    refine ⟨[], (runRules kw now today post).1, ?_⟩
    simp [runRules, hr]
  | cons q qs ih =>
    obtain ⟨l₁, l₂, h1, h2, h3⟩ := ih
    rw [List.cons_append, List.cons_append, runRules, runRules]
    cases h : q.check kw today with
    | error e' =>
      exact ⟨q :: l₁, l₂, by simp [h1], by simp [h2], by simp [h3]⟩
    | ok val =>
      obtain ⟨⟨b, msg⟩, q'⟩ := val
      cases b with
      | false =>
        exact ⟨q'.record_violation now :: qs, post, by simp, by simp, by simp⟩
      | true =>
        exact ⟨q' :: l₁, l₂, by simp [h1], by simp [h2], by simp [h3]⟩

/-- Indexing the element placed right after a prefix. -/
lemma get?_append_cons {α : Type} (l₁ : List α) (x : α) (l₂ : List α) :
    (l₁ ++ x :: l₂)[l₁.length]? = some x := by
  induction l₁ with
  | nil => simp
  | cons a as ih => simpa using ih

/-- C3.  For every `RiskManager` check (all three — `check_order`,
`check_trade` and `check_chase_order` — are instances of `run_check`, as
the last three conjuncts record): rules run in registration order, and
the first rule that disallows short-circuits.  The call returns `(false,
that rule's reason)`; every rule after the failing one is left exactly as
it was (no state mutation); a timestamped violation event naming the rule
is appended to the history; and the failing rule's violation counter is
incremented. -/
theorem C3_first_violation_short_circuits
    (m : RiskManager) (kw : CheckKwargs) (now today : Nat) (acc : String)
    (pre post : List RiskRule) (r r' : RiskRule) (msg : String)
    (hrules : m.rules = pre ++ r :: post)
    (hen : m.enabled = true)
    (hpre : ∀ q ∈ pre, RuleFailsB kw today q = false)
    (hr : r.check kw today = .ok ((false, msg), r'))
    (hlen : m.risk_events.length < m.max_event_history) :
    (m.run_check kw now today acc).1 = (false, msg)
    ∧ (m.run_check kw now today acc).2.rules
        = (runRules kw now today pre).1 ++ r'.record_violation now :: post
    ∧ (r'.record_violation now).violations = r.violations + 1
    ∧ (m.run_check kw now today acc).2.risk_events
        = m.risk_events ++ [⟨now, acc, r.name, msg⟩]
    ∧ (∀ a n t os cp, RiskManager.check_order m n t a os cp
        = m.run_check ⟨some os, some cp, none, none⟩ n t a)
    ∧ (∀ a n t pnl cc, RiskManager.check_trade m n t a pnl cc
        = m.run_check ⟨none, none, some pnl, some cc⟩ n t a)
    ∧ (∀ a n t cc, RiskManager.check_chase_order m n t a cc
        = m.run_check ⟨none, none, none, some cc⟩ n t a) := by
  obtain ⟨hname, hviol, -, -⟩ := RiskRule.check_preserves_meta hr
  have hloop : runRules kw now today m.rules
      = ((runRules kw now today pre).1 ++ r'.record_violation now :: post,
         some (r'.name, msg)) := by
    rw [hrules, runRules_append_nofail kw now today pre (r :: post) hpre,
      runRules, hr]
  have hlen2 : ¬ m.max_event_history < m.risk_events.length + 1 := by omega
  constructor
  · simp [RiskManager.run_check, hen, hloop]
  constructor
  · simp [RiskManager.run_check, hen, hloop, RiskManager.record_risk_event]
  constructor
  · simp [RiskRule.record_violation, hviol]
  constructor
  · simp [RiskManager.run_check, hen, hloop, RiskManager.record_risk_event,
      List.length_append, hlen2, hname]
  exact ⟨fun _ _ _ _ _ => rfl, fun _ _ _ _ _ => rfl, fun _ _ _ _ => rfl⟩

/-- C3 (witness): a manager with the default rule order `[MaxPosition 10,
MaxOrderSize 1, DailyLoss 100]` checking an order of size 2: MaxPosition
passes (position 0), MaxOrderSize is the first to fail, the DailyLoss rule
after it is untouched. -/
theorem C3_witness :
    ((⟨[⟨true, 0, none, .maxPosition 10⟩, ⟨true, 3, none, .maxOrderSize 1⟩,
        ⟨true, 0, none, .dailyLoss 100 0 0⟩], true, [], 100⟩ : RiskManager).run_check
      ⟨some 2, some 0, none, none⟩ 5 0 "acct").1
      = (false, "Order size " ++ toString (2 : ℚ) ++ " exceeds max " ++ toString (1 : ℚ))
    ∧ ((⟨[⟨true, 0, none, .maxPosition 10⟩, ⟨true, 3, none, .maxOrderSize 1⟩,
        ⟨true, 0, none, .dailyLoss 100 0 0⟩], true, [], 100⟩ : RiskManager).run_check
      ⟨some 2, some 0, none, none⟩ 5 0 "acct").2.rules
      = (runRules ⟨some 2, some 0, none, none⟩ 5 0 [⟨true, 0, none, .maxPosition 10⟩]).1
        ++ (⟨true, 3, none, .maxOrderSize 1⟩ : RiskRule).record_violation 5
          :: [⟨true, 0, none, .dailyLoss 100 0 0⟩] := by
  have h := C3_first_violation_short_circuits
    ⟨[⟨true, 0, none, .maxPosition 10⟩, ⟨true, 3, none, .maxOrderSize 1⟩,
      ⟨true, 0, none, .dailyLoss 100 0 0⟩], true, [], 100⟩
    ⟨some 2, some 0, none, none⟩ 5 0 "acct"
    [⟨true, 0, none, .maxPosition 10⟩] [⟨true, 0, none, .dailyLoss 100 0 0⟩]
    ⟨true, 3, none, .maxOrderSize 1⟩ ⟨true, 3, none, .maxOrderSize 1⟩
    ("Order size " ++ toString (2 : ℚ) ++ " exceeds max " ++ toString (1 : ℚ))
    rfl rfl (by decide) (by rfl) (by decide)
  exact ⟨h.1, h.2.1⟩

/-- C7.  For every `RiskManager` check (`check_order`, `check_trade`,
`check_chase_order` — all instances of `run_check`, last three conjuncts):
a rule whose `check` raises does not propagate the exception past the
manager.  The verdict and the recorded events are identical to running the
manager without that rule, the remaining rules are evaluated (and end in
the same states `l₁ ++ l₂`), and the raising rule itself sits unchanged
between them.  In particular the exception never blocks the action. -/
theorem C7_raising_rule_is_skipped
    (m : RiskManager) (kw : CheckKwargs) (now today : Nat) (acc : String)
    (pre post : List RiskRule) (r : RiskRule) (e : String)
    (hrules : m.rules = pre ++ r :: post)
    (hr : r.check kw today = .error e) :
    ∃ l₁ l₂,
      (m.run_check kw now today acc).1
        = (({ m with rules := pre ++ post } : RiskManager).run_check kw now today acc).1
      ∧ (m.run_check kw now today acc).2.risk_events
        = (({ m with rules := pre ++ post } : RiskManager).run_check kw now today acc).2.risk_events
      ∧ (({ m with rules := pre ++ post } : RiskManager).run_check kw now today acc).2.rules
        = l₁ ++ l₂
      ∧ l₁.length = pre.length
      ∧ (m.run_check kw now today acc).2.rules = l₁ ++ r :: l₂
      ∧ (∀ a n t os cp, RiskManager.check_order m n t a os cp
          = m.run_check ⟨some os, some cp, none, none⟩ n t a)
      ∧ (∀ a n t pnl cc, RiskManager.check_trade m n t a pnl cc
          = m.run_check ⟨none, none, some pnl, some cc⟩ n t a)
      ∧ (∀ a n t cc, RiskManager.check_chase_order m n t a cc
          = m.run_check ⟨none, none, none, some cc⟩ n t a) := by
  by_cases hen : m.enabled = true
  · obtain ⟨l₁, l₂, h1, h2, h3⟩ := runRules_skip kw now today r e hr pre post
    cases hR : runRules kw now today (pre ++ r :: post) with
    | mk lst res =>
      rw [hR] at h1 h3
      simp only at h3
      refine ⟨l₁, l₂, ?_⟩
      cases res with
      | none =>
        refine ⟨?_, ?_, ?_, h2, ?_, fun _ _ _ _ _ => rfl,
          fun _ _ _ _ _ => rfl, fun _ _ _ _ => rfl⟩ <;>
          simp [RiskManager.run_check, hen, hrules, hR, h1, h3]
      | some p =>
        obtain ⟨rn, msg⟩ := p
        refine ⟨?_, ?_, ?_, h2, ?_, fun _ _ _ _ _ => rfl,
          fun _ _ _ _ _ => rfl, fun _ _ _ _ => rfl⟩ <;>
          simp [RiskManager.run_check, hen, hrules, hR, h1, h3,
            RiskManager.record_risk_event]
  · have henf : m.enabled = false := by
      cases h : m.enabled
      · rfl
      · exact absurd h hen
    refine ⟨pre, post, ?_, ?_, ?_, rfl, ?_, fun _ _ _ _ _ => rfl,
      fun _ _ _ _ _ => rfl, fun _ _ _ _ => rfl⟩ <;>
      simp [RiskManager.run_check, henf, hrules]

/-- C7 (witness): under `check_order` kwargs a `MaxChase` rule raises
`TypeError` (no `chase_count` argument); a manager holding
`[MaxPosition 10, MaxChase 1, MaxOrderSize 1]` checking order size 2
behaves exactly like one without the chase rule. -/
theorem C7_witness :
    ∃ l₁ l₂,
      ((⟨[⟨true, 0, none, .maxPosition 10⟩, ⟨true, 0, none, .maxChase 1⟩,
          ⟨true, 0, none, .maxOrderSize 1⟩], true, [], 100⟩ : RiskManager).run_check
        ⟨some 2, some 0, none, none⟩ 5 0 "acct").1
      = ((⟨[⟨true, 0, none, .maxPosition 10⟩, ⟨true, 0, none, .maxOrderSize 1⟩],
          true, [], 100⟩ : RiskManager).run_check ⟨some 2, some 0, none, none⟩ 5 0 "acct").1
      ∧ ((⟨[⟨true, 0, none, .maxPosition 10⟩, ⟨true, 0, none, .maxChase 1⟩,
          ⟨true, 0, none, .maxOrderSize 1⟩], true, [], 100⟩ : RiskManager).run_check
        ⟨some 2, some 0, none, none⟩ 5 0 "acct").2.risk_events
      = ((⟨[⟨true, 0, none, .maxPosition 10⟩, ⟨true, 0, none, .maxOrderSize 1⟩],
          true, [], 100⟩ : RiskManager).run_check ⟨some 2, some 0, none, none⟩ 5 0 "acct").2.risk_events
      ∧ ((⟨[⟨true, 0, none, .maxPosition 10⟩, ⟨true, 0, none, .maxOrderSize 1⟩],
          true, [], 100⟩ : RiskManager).run_check ⟨some 2, some 0, none, none⟩ 5 0 "acct").2.rules
        = l₁ ++ l₂
      ∧ l₁.length = 1
      ∧ ((⟨[⟨true, 0, none, .maxPosition 10⟩, ⟨true, 0, none, .maxChase 1⟩,
          ⟨true, 0, none, .maxOrderSize 1⟩], true, [], 100⟩ : RiskManager).run_check
        ⟨some 2, some 0, none, none⟩ 5 0 "acct").2.rules
        = l₁ ++ (⟨true, 0, none, .maxChase 1⟩ : RiskRule) :: l₂ := by
  obtain ⟨l₁, l₂, h1, h2, h3, h4, h5, -⟩ := C7_raising_rule_is_skipped
    ⟨[⟨true, 0, none, .maxPosition 10⟩, ⟨true, 0, none, .maxChase 1⟩,
      ⟨true, 0, none, .maxOrderSize 1⟩], true, [], 100⟩
    ⟨some 2, some 0, none, none⟩ 5 0 "acct"
    [⟨true, 0, none, .maxPosition 10⟩] [⟨true, 0, none, .maxOrderSize 1⟩]
    ⟨true, 0, none, .maxChase 1⟩
    "TypeError: check missing required argument chase_count" rfl rfl
  exact ⟨l₁, l₂, h1, h2, h3, h4, h5⟩

/-- C8.  Whenever `check_trade` reaches an enabled `DailyLoss` rule (no
rule before it fails — in the default configuration the rules before it
raise `TypeError` under trade kwargs and are skipped), the passed
`realized_pnl` is added to the rule's running daily total, whatever the
overall verdict: the rule at that position ends the call with
`daily_pnl = old + trade_pnl`.  The accumulation is not rolled back when
the check reports failure. -/
theorem C8_daily_loss_accumulates
    (m : RiskManager) (now today : Nat) (acc : String) (pnl : ℚ) (cc : Int)
    (pre post : List RiskRule) (mx dpnl : ℚ) (v : Nat) (lv : Option Nat)
    (hrules : m.rules = pre ++ (⟨true, v, lv, .dailyLoss mx dpnl today⟩ : RiskRule) :: post)
    (hen : m.enabled = true)
    (hpre : ∀ q ∈ pre, RuleFailsB ⟨none, none, some pnl, some cc⟩ today q = false) :
    ∃ d', ((m.check_trade now today acc pnl cc).2.rules)[pre.length]? = some d'
      ∧ d'.kind = .dailyLoss mx (dpnl + pnl) today := by
  have hsplit := runRules_append_nofail ⟨none, none, some pnl, some cc⟩ now today pre
    ((⟨true, v, lv, .dailyLoss mx dpnl today⟩ : RiskRule) :: post) hpre
  have hplen := runRules_length ⟨none, none, some pnl, some cc⟩ now today pre
  have hcheck : (⟨true, v, lv, .dailyLoss mx dpnl today⟩ : RiskRule).check
      ⟨none, none, some pnl, some cc⟩ today
      = if dpnl + pnl < -mx then
          .ok ((false, "Daily loss " ++ toString (dpnl + pnl) ++ " exceeds max " ++ toString mx),
            ⟨true, v, lv, .dailyLoss mx (dpnl + pnl) today⟩)
        else .ok ((true, ""), ⟨true, v, lv, .dailyLoss mx (dpnl + pnl) today⟩) := by
    simp [RiskRule.check]
  rw [RiskManager.check_trade, RiskManager.run_check]
  simp only [hen, hrules, hsplit]
  rw [runRules, hcheck]
  by_cases hfail : dpnl + pnl < -mx
  · simp only [hfail, if_true]
    refine ⟨RiskRule.record_violation ⟨true, v, lv, .dailyLoss mx (dpnl + pnl) today⟩ now, ?_, rfl⟩
    simp [RiskManager.record_risk_event]
    rw [← hplen]
    exact get?_append_cons _ _ _
  · simp only [hfail, if_false]
    refine ⟨⟨true, v, lv, .dailyLoss mx (dpnl + pnl) today⟩, ?_, rfl⟩
    cases hres : (runRules ⟨none, none, some pnl, some cc⟩ now today post).2 with
    | none =>
      simp
      rw [← hplen]
      exact get?_append_cons _ _ _
    | some p =>
      obtain ⟨rn, msg⟩ := p
      simp [RiskManager.record_risk_event]
      rw [← hplen]
      exact get?_append_cons _ _ _

/-- C8 (witness): manager `[MaxPosition 10, MaxOrderSize 1,
DailyLoss 2 (with running total -3), MaxChase 9]` on `check_trade` with
realized pnl `-5`: the two leading rules raise and are skipped, the daily
rule accumulates `-3 + -5` (and in fact the check fails, since
`-8 < -2` — the accumulation still sticks). -/
theorem C8_witness :
    ∃ d', (((⟨[⟨true, 0, none, .maxPosition 10⟩, ⟨true, 0, none, .maxOrderSize 1⟩,
        ⟨true, 0, none, .dailyLoss 2 (-3) 0⟩, ⟨true, 0, none, .maxChase 9⟩],
        true, [], 100⟩ : RiskManager).check_trade 5 0 "acct" (-5) 0).2.rules)[2]?
        = some d'
      ∧ d'.kind = .dailyLoss 2 ((-3) + (-5)) 0 :=
  C8_daily_loss_accumulates
    ⟨[⟨true, 0, none, .maxPosition 10⟩, ⟨true, 0, none, .maxOrderSize 1⟩,
      ⟨true, 0, none, .dailyLoss 2 (-3) 0⟩, ⟨true, 0, none, .maxChase 9⟩],
      true, [], 100⟩ 5 0 "acct" (-5) 0
    [⟨true, 0, none, .maxPosition 10⟩, ⟨true, 0, none, .maxOrderSize 1⟩]
    [⟨true, 0, none, .maxChase 9⟩] 2 (-3) 0 none rfl rfl (by decide)

/-- Membership in the rule list built by `configure_default_rules`:
exactly one rule per truthy configured limit. -/
lemma mem_configure_default_rules (m : RiskManager) (cfg : RiskConfig)
    (today : Nat) (r : RiskRule) :
    r ∈ (m.configure_default_rules cfg today).rules ↔
      (∃ x, cfg.max_position = some x ∧ x ≠ 0 ∧ r = ⟨true, 0, none, .maxPosition x⟩)
      ∨ (∃ x, cfg.max_order_size = some x ∧ x ≠ 0 ∧ r = ⟨true, 0, none, .maxOrderSize x⟩)
      ∨ (∃ x, cfg.max_daily_loss = some x ∧ x ≠ 0 ∧ r = ⟨true, 0, none, .dailyLoss x 0 today⟩)
      ∨ (∃ x, cfg.max_chase_count = some x ∧ x ≠ 0 ∧ r = ⟨true, 0, none, .maxChase x⟩) := by
  obtain ⟨p, os, dl, mc⟩ := cfg
  simp only [RiskManager.configure_default_rules, List.mem_append]
  cases p <;> cases os <;> cases dl <;> cases mc <;>
    (try split_ifs) <;> simp_all [or_assoc]

/-- C10.  `configure_default_rules` first discards every previously
registered rule (the resulting rule list does not depend on the manager's
prior rules), and installs a rule for a limit key only when the configured
value is truthy: an absent (`None`) or zero limit registers no rule of
that kind, so that limit is simply not enforced; a non-zero limit
registers exactly that rule with the configured ceiling (the `DailyLoss`
rule starting with a zero running total and today's reset date). -/
theorem C10_configure_default_rules
    (m m' : RiskManager) (cfg : RiskConfig) (today : Nat) :
    ((m.configure_default_rules cfg today).rules
        = (m'.configure_default_rules cfg today).rules)
    ∧ ((cfg.max_position = none ∨ cfg.max_position = some 0) →
        ∀ r ∈ (m.configure_default_rules cfg today).rules,
          ∀ x : ℚ, r.kind ≠ .maxPosition x)
    ∧ ((cfg.max_order_size = none ∨ cfg.max_order_size = some 0) →
        ∀ r ∈ (m.configure_default_rules cfg today).rules,
          ∀ x : ℚ, r.kind ≠ .maxOrderSize x)
    ∧ ((cfg.max_daily_loss = none ∨ cfg.max_daily_loss = some 0) →
        ∀ r ∈ (m.configure_default_rules cfg today).rules,
          ∀ x y : ℚ, ∀ d : Nat, r.kind ≠ .dailyLoss x y d)
    ∧ ((cfg.max_chase_count = none ∨ cfg.max_chase_count = some 0) →
        ∀ r ∈ (m.configure_default_rules cfg today).rules,
          ∀ x : Int, r.kind ≠ .maxChase x)
    ∧ (∀ x : ℚ, cfg.max_position = some x → x ≠ 0 →
        (⟨true, 0, none, .maxPosition x⟩ : RiskRule) ∈ (m.configure_default_rules cfg today).rules)
    ∧ (∀ x : ℚ, cfg.max_order_size = some x → x ≠ 0 →
        (⟨true, 0, none, .maxOrderSize x⟩ : RiskRule) ∈ (m.configure_default_rules cfg today).rules)
    ∧ (∀ x : ℚ, cfg.max_daily_loss = some x → x ≠ 0 →
        (⟨true, 0, none, .dailyLoss x 0 today⟩ : RiskRule) ∈ (m.configure_default_rules cfg today).rules)
    ∧ (∀ x : Int, cfg.max_chase_count = some x → x ≠ 0 →
        (⟨true, 0, none, .maxChase x⟩ : RiskRule) ∈ (m.configure_default_rules cfg today).rules) := by
  refine ⟨rfl, ?_, ?_, ?_, ?_, ?_, ?_, ?_, ?_⟩
  · intro hx r hr x
    rw [mem_configure_default_rules] at hr
    rcases hr with ⟨y, hy, hy0, rfl⟩ | ⟨y, hy, hy0, rfl⟩ | ⟨y, hy, hy0, rfl⟩ | ⟨y, hy, hy0, rfl⟩ <;>
      rcases hx with hx | hx <;> simp_all
  · intro hx r hr x
    rw [mem_configure_default_rules] at hr
    rcases hr with ⟨y, hy, hy0, rfl⟩ | ⟨y, hy, hy0, rfl⟩ | ⟨y, hy, hy0, rfl⟩ | ⟨y, hy, hy0, rfl⟩ <;>
      rcases hx with hx | hx <;> simp_all
  · intro hx r hr x y d
    rw [mem_configure_default_rules] at hr
    rcases hr with ⟨z, hz, hz0, rfl⟩ | ⟨z, hz, hz0, rfl⟩ | ⟨z, hz, hz0, rfl⟩ | ⟨z, hz, hz0, rfl⟩ <;>
      rcases hx with hx | hx <;> simp_all
  · intro hx r hr x
    rw [mem_configure_default_rules] at hr
    rcases hr with ⟨y, hy, hy0, rfl⟩ | ⟨y, hy, hy0, rfl⟩ | ⟨y, hy, hy0, rfl⟩ | ⟨y, hy, hy0, rfl⟩ <;>
      rcases hx with hx | hx <;> simp_all
  · intro x hx hx0
    rw [mem_configure_default_rules]
    exact Or.inl ⟨x, hx, hx0, rfl⟩
  · intro x hx hx0
    rw [mem_configure_default_rules]
    exact Or.inr (Or.inl ⟨x, hx, hx0, rfl⟩)
  · intro x hx hx0
    rw [mem_configure_default_rules]
    exact Or.inr (Or.inr (Or.inl ⟨x, hx, hx0, rfl⟩))
  · intro x hx hx0
    rw [mem_configure_default_rules]
    exact Or.inr (Or.inr (Or.inr ⟨x, hx, hx0, rfl⟩))

/-- Config used by the C10 witness: `max_position = 0` (falsy),
`max_order_size` absent, `max_daily_loss = 5`, `max_chase_count = 0`
(falsy). -/
def C10cfg : RiskConfig := ⟨some 0, none, some 5, some 0⟩

/-- C10 (witness): with that config — and regardless of previously
registered rules — no position, order-size or chase rule is installed,
while the daily-loss rule is, with ceiling 5, zero running total and
today's date. -/
theorem C10_witness :
    ((RiskManager.init.configure_default_rules C10cfg 3).rules
      = (({ RiskManager.init with
            rules := [⟨true, 7, none, .maxChase 9⟩] } : RiskManager).configure_default_rules
          C10cfg 3).rules)
    ∧ (∀ r ∈ (RiskManager.init.configure_default_rules C10cfg 3).rules,
        ∀ x : ℚ, r.kind ≠ .maxPosition x)
    ∧ (∀ r ∈ (RiskManager.init.configure_default_rules C10cfg 3).rules,
        ∀ x : ℚ, r.kind ≠ .maxOrderSize x)
    ∧ (∀ r ∈ (RiskManager.init.configure_default_rules C10cfg 3).rules,
        ∀ x : Int, r.kind ≠ .maxChase x)
    ∧ (⟨true, 0, none, .dailyLoss 5 0 3⟩ : RiskRule)
        ∈ (RiskManager.init.configure_default_rules C10cfg 3).rules := by
  have h := C10_configure_default_rules RiskManager.init
    { RiskManager.init with rules := [⟨true, 7, none, .maxChase 9⟩] } C10cfg 3
  exact ⟨h.1, h.2.1 (Or.inr rfl), h.2.2.1 (Or.inl rfl), h.2.2.2.2.1 (Or.inr rfl),
    h.2.2.2.2.2.2.2.1 5 rfl (by decide)⟩

/-- C6.  An open attempt (either spread direction) whose risk check is
denied on either leg submits nothing: the call returns normally, the
order-callback environment is untouched (zero submissions), and the pair —
including its IDLE status and position fields — is exactly as before.
Only the risk manager's own bookkeeping may change. -/
theorem C6_open_risk_denial_keeps_state
    (p : StrategyParams) (now today : Nat) (st : StrategyState)
    (hidle : st.pair.status = .idle) :
    (((st.rm.check_order now today p.bybit_account_id (-p.order_size) 0).1.1 = false
        ∨ ((st.rm.check_order now today p.bybit_account_id (-p.order_size) 0).2.check_order
            now today p.binance_account_id p.order_size 0).1.1 = false) →
      ∃ st', execute_open_positive p now today st = .ok st'
        ∧ st'.pair = st.pair ∧ st'.es = st.es ∧ st'.pair.status = .idle)
    ∧ (((st.rm.check_order now today p.binance_account_id (-p.order_size) 0).1.1 = false
        ∨ ((st.rm.check_order now today p.binance_account_id (-p.order_size) 0).2.check_order
            now today p.bybit_account_id p.order_size 0).1.1 = false) →
      ∃ st', execute_open_negative p now today st = .ok st'
        ∧ st'.pair = st.pair ∧ st'.es = st.es ∧ st'.pair.status = .idle) := by
  constructor
  · intro hd
    by_cases h1 : (st.rm.check_order now today p.bybit_account_id (-p.order_size) 0).1.1 = false
    · refine ⟨{ st with
          rm := (st.rm.check_order now today p.bybit_account_id (-p.order_size) 0).2 },
        ?_, rfl, rfl, hidle⟩
      simp [execute_open_positive, h1]
    · have h2 := hd.resolve_left h1
      refine ⟨{ st with
          rm := ((st.rm.check_order now today p.bybit_account_id (-p.order_size) 0).2.check_order
            now today p.binance_account_id p.order_size 0).2 },
        ?_, rfl, rfl, hidle⟩
      simp [execute_open_positive, h1, h2]
  · intro hd
    by_cases h1 : (st.rm.check_order now today p.binance_account_id (-p.order_size) 0).1.1 = false
    · refine ⟨{ st with
          rm := (st.rm.check_order now today p.binance_account_id (-p.order_size) 0).2 },
        ?_, rfl, rfl, hidle⟩
      simp [execute_open_negative, h1]
    · have h2 := hd.resolve_left h1
      refine ⟨{ st with
          rm := ((st.rm.check_order now today p.binance_account_id (-p.order_size) 0).2.check_order
            now today p.bybit_account_id p.order_size 0).2 },
        ?_, rfl, rfl, hidle⟩
      simp [execute_open_negative, h1, h2]

/-- Parameters used by the C6 scenario: order size 2 against a
MaxOrderSize ceiling of 1, so both leg checks are denied. -/
def C6params : StrategyParams := ⟨"S", "A", "B", 1, 1, 2, 5, 3⟩

/-- IDLE strategy state with a valid spread snapshot and a risk manager
holding a `MaxOrderSize 1` rule. -/
def C6state : StrategyState :=
  ⟨{ ArbitragePair.init with
       spread_data := ⟨some 100, some 103, some 99, some 101, some 4, some 1, some 1⟩ },
   ⟨[⟨true, 0, none, .maxOrderSize 1⟩], true, [], 100⟩, ExecState.init⟩

/-- C6 (witness): with order size 2 and ceiling 1 the first leg's check
already fails, so both open directions leave the state untouched. -/
theorem C6_witness :
    (∃ st', execute_open_positive C6params 7 0 C6state = .ok st'
      ∧ st'.pair = C6state.pair ∧ st'.es = C6state.es ∧ st'.pair.status = .idle)
    ∧ (∃ st', execute_open_negative C6params 7 0 C6state = .ok st'
      ∧ st'.pair = C6state.pair ∧ st'.es = C6state.es ∧ st'.pair.status = .idle) :=
  ⟨(C6_open_risk_denial_keeps_state C6params 7 0 C6state rfl).1 (Or.inl (by decide)),
   (C6_open_risk_denial_keeps_state C6params 7 0 C6state rfl).2 (Or.inl (by decide))⟩

/-- C4 (amended).  When the CLOSING → CLOSED transition fires, the
recorded pnl is `spread_positive or spread_negative or 0.0` — the cached
positive-direction spread whenever it is non-`None` and non-zero,
regardless of which direction the position was opened in; the
negative-direction spread is used only as a fallback. -/
theorem C4_close_pnl_formula (p : StrategyParams) (now today : Nat)
    (st : StrategyState)
    (hs : st.pair.status = .closing)
    (hb : st.pair.bybit_trade_filled = true)
    (hn : st.pair.binance_trade_filled = true) :
    (check_both_filled p now today st).pair.status = .closed
    ∧ (check_both_filled p now today st).pair.pnl
      = pyOrQ st.pair.spread_data.spread_positive st.pair.spread_data.spread_negative := by
  constructor <;> simp [check_both_filled, hs, hb, hn]

/-- Parameters used by the C4 scenario. -/
def C4params : StrategyParams := ⟨"S", "A", "B", 1, 1, 2, 5, 3⟩

/-- A CLOSING pair opened in the opposite direction (long bybit, short
binance — the direction that captures `spread_BA`), bybit leg already
confirmed, with `spread_positive = 5` and `spread_negative = -2`. -/
def C4state : StrategyState :=
  ⟨⟨.closing, ⟨some 100, some 103, some 99, some 101, some 5, some (-2), some 1⟩,
    2, -2, some 1, some 2, true, false, false, 0, some 0, some 1, 0⟩,
   ⟨[], true, [], 100⟩, ⟨[], 3⟩⟩

/-- C4 (counterexample).  The claim says the recorded pnl is the signed
spread being captured — `spread_BA` (= -2) for this opposite-direction
position.  The code records `spread_positive` (= 5) instead, because
`pnl = spread_positive or spread_negative or 0.0` never looks at the
position direction. -/
theorem C4_counterexample :
    (on_trade C4params "binance" (some (-2)) 5 0 C4state).pair.status = .closed
    ∧ (on_trade C4params "binance" (some (-2)) 5 0 C4state).pair.pnl = 5
    ∧ C4state.pair.bybit_position = 2
    ∧ C4state.pair.binance_position = -2
    ∧ C4state.pair.spread_data.spread_negative = some (-2)
    ∧ (5 : ℚ) ≠ -2 := by
  refine ⟨by decide, by decide, rfl, rfl, rfl, by decide⟩

/-- The C4 state with both legs already confirmed, for instantiating the
amended theorem. -/
def C4state2 : StrategyState :=
  ⟨⟨.closing, ⟨some 100, some 103, some 99, some 101, some 5, some (-2), some 1⟩,
    2, -2, some 1, some 2, true, true, false, 0, some 0, some 1, 0⟩,
   ⟨[], true, [], 100⟩, ⟨[], 3⟩⟩

/-- C4 (witness) for the amended formula at a concrete CLOSING state. -/
theorem C4_witness :
    (check_both_filled C4params 5 0 C4state2).pair.status = .closed
    ∧ (check_both_filled C4params 5 0 C4state2).pair.pnl
      = pyOrQ C4state2.pair.spread_data.spread_positive
          C4state2.pair.spread_data.spread_negative :=
  C4_close_pnl_formula C4params 5 0 C4state2 rfl rfl rfl

/-- C2 (amended).  Timeout handling with only the bybit leg confirmed
chases the binance leg, gated by `check_chase_order(strategy_id,
chase_order_count + 1)` against a `MaxChase` rule with ceiling `mx`.
Because the rule tests `chase_count >= max_chase_count`, a chase is
allowed only while `chase_order_count + 1 < mx`: with ceiling 1 even the
first chase attempt is denied.  Denied: nothing is submitted, the pair is
unchanged, the rule's violation counter increments and a risk event is
recorded.  Allowed: both outstanding orders are cancelled, exactly one
replacement order is submitted for the unfilled (binance) venue, its id is
stored, the unilateral flag is set and `chase_order_count` increments. -/
theorem C2_chase_gating
    (p : StrategyParams) (now today : Nat) (st : StrategyState)
    (mx : Int) (v : Nat) (lv : Option Nat) (i₁ i₂ : Nat) (pr : ℚ)
    (hen : st.rm.enabled = true)
    (hrules : st.rm.rules = [⟨true, v, lv, .maxChase mx⟩])
    (hst : st.pair.status = .opening)
    (hbf : st.pair.bybit_trade_filled = true)
    (hnf : st.pair.binance_trade_filled = false)
    (hi₁ : st.pair.bybit_order_id = some i₁)
    (hi₂ : st.pair.binance_order_id = some i₂)
    (hbp : ¬ 0 < st.pair.bybit_position)
    (hnp : ¬ 0 < st.pair.binance_position)
    (hask : st.pair.spread_data.binance_ask = some pr)
    (hlen : st.rm.risk_events.length < st.rm.max_event_history) :
    (mx ≤ (st.pair.chase_order_count : Int) + 1 →
      (handle_trade_timeout p now today st).es = st.es
      ∧ (handle_trade_timeout p now today st).pair = st.pair
      ∧ (handle_trade_timeout p now today st).rm.rules
        = [⟨true, v + 1, some now, .maxChase mx⟩]
      ∧ (handle_trade_timeout p now today st).rm.risk_events.length
        = st.rm.risk_events.length + 1)
    ∧ ((st.pair.chase_order_count : Int) + 1 < mx →
      (handle_trade_timeout p now today st).pair.chase_order_count
        = st.pair.chase_order_count + 1
      ∧ (handle_trade_timeout p now today st).pair.unilateral_trade_flag = true
      ∧ (handle_trade_timeout p now today st).pair.status = .opening
      ∧ (handle_trade_timeout p now today st).pair.binance_order_id
        = some (st.es.next_id + 2)
      ∧ (handle_trade_timeout p now today st).es.submitted
        = st.es.submitted
          ++ [⟨p.bybit_account_id, "cancel", 0, 0, some i₁⟩,
              ⟨p.binance_account_id, "cancel", 0, 0, some i₂⟩,
              ⟨p.binance_account_id, "sell", pr, p.order_size, none⟩]
      ∧ (handle_trade_timeout p now today st).rm = st.rm) := by
  have hlen2 : ¬ st.rm.max_event_history < st.rm.risk_events.length + 1 := by omega
  constructor
  · intro hd
    refine ⟨?_, ?_, ?_, ?_⟩ <;>
      simp [handle_trade_timeout, hbf, hnf, execute_chase_order,
        RiskManager.check_chase_order, RiskManager.run_check, runRules,
        RiskRule.check, RiskRule.record_violation, RiskManager.record_risk_event,
        hen, hrules, hd, List.length_append, hlen2]
  · intro hd
    have hnd : ¬ mx ≤ (st.pair.chase_order_count : Int) + 1 := by omega
    have hrm : (handle_trade_timeout p now today st).rm = st.rm := by
      simp [handle_trade_timeout, hbf, hnf, execute_chase_order,
        RiskManager.check_chase_order, RiskManager.run_check, runRules,
        RiskRule.check, cancel_all_orders, ExecState.submit,
        hen, hrules, hnd, hi₁, hi₂, hbp, hnp, hask]
      rw [← hrules, ← hen]
    refine ⟨?_, ?_, ?_, ?_, ?_, hrm⟩ <;>
      simp [handle_trade_timeout, hbf, hnf, execute_chase_order,
        RiskManager.check_chase_order, RiskManager.run_check, runRules,
        RiskRule.check, cancel_all_orders, ExecState.submit,
        hen, hrules, hnd, hi₁, hi₂, hbp, hnp, hask, hst]

/-- Parameters used by the C2 scenario. -/
def C2params : StrategyParams := ⟨"S", "A", "B", 1, 1, 2, 5, 3⟩

/-- An OPENING pair past its timeout: bybit leg (short, position -2)
confirmed, binance leg unfilled, orders 1 and 2 outstanding, no chases
yet; the risk manager holds a `MaxChase` rule with ceiling 1. -/
def C2state : StrategyState :=
  ⟨⟨.opening, ⟨some 100, some 103, some 99, some 101, some 4, some 1, some 1⟩,
    -2, 0, some 1, some 2, true, false, false, 0, some 0, none, 0⟩,
   ⟨[⟨true, 0, none, .maxChase 1⟩], true, [], 100⟩, ⟨[], 3⟩⟩

/-- The same scenario with chase ceiling 2 instead of 1. -/
def C2state2 : StrategyState :=
  ⟨⟨.opening, ⟨some 100, some 103, some 99, some 101, some 4, some 1, some 1⟩,
    -2, 0, some 1, some 2, true, false, false, 0, some 0, none, 0⟩,
   ⟨[⟨true, 0, none, .maxChase 2⟩], true, [], 100⟩, ⟨[], 3⟩⟩

/-- C2 (counterexample).  The claim says that with ceiling 1 the first
chase attempt submits one replacement order and sets `chase_count` to 1.
In fact the check is called with `chase_count + 1 = 1` and `1 >= 1`
already fails: no order is submitted, the count stays 0, and a violation
is logged. -/
theorem C2_counterexample :
    (handle_trade_timeout C2params 10 0 C2state).es.submitted = []
    ∧ (handle_trade_timeout C2params 10 0 C2state).pair.chase_order_count = 0
    ∧ (handle_trade_timeout C2params 10 0 C2state).pair.status = .opening
    ∧ (handle_trade_timeout C2params 10 0 C2state).rm.rules.map RiskRule.violations = [1]
    ∧ (handle_trade_timeout C2params 10 0 C2state).rm.risk_events.length = 1 := by
  refine ⟨by decide, by decide, by decide, by decide, by decide⟩

/-- C2 (witness) for the amended gating theorem: ceiling 1 denies the
first chase (state unchanged); ceiling 2 allows it — two cancels plus
exactly one replacement sell on the binance account at its stored ask. -/
theorem C2_witness :
    ((handle_trade_timeout C2params 10 0 C2state).es = C2state.es
      ∧ (handle_trade_timeout C2params 10 0 C2state).pair = C2state.pair
      ∧ (handle_trade_timeout C2params 10 0 C2state).rm.rules
        = [⟨true, 1, some 10, .maxChase 1⟩]
      ∧ (handle_trade_timeout C2params 10 0 C2state).rm.risk_events.length = 0 + 1)
    ∧ ((handle_trade_timeout C2params 10 0 C2state2).pair.chase_order_count = 0 + 1
      ∧ (handle_trade_timeout C2params 10 0 C2state2).pair.unilateral_trade_flag = true
      ∧ (handle_trade_timeout C2params 10 0 C2state2).pair.status = .opening
      ∧ (handle_trade_timeout C2params 10 0 C2state2).pair.binance_order_id = some (3 + 2)
      ∧ (handle_trade_timeout C2params 10 0 C2state2).es.submitted
        = [] ++ [⟨"A", "cancel", 0, 0, some 1⟩, ⟨"B", "cancel", 0, 0, some 2⟩,
                 ⟨"B", "sell", 101, 2, none⟩]
      ∧ (handle_trade_timeout C2params 10 0 C2state2).rm = C2state2.rm) := by
  constructor
  · have h := C2_chase_gating C2params 10 0 C2state 1 0 none 1 2 101
      rfl rfl rfl rfl rfl rfl rfl (by decide) (by decide) rfl (by decide)
    exact h.1 (by decide)
  · have h := C2_chase_gating C2params 10 0 C2state2 2 0 none 1 2 101
      rfl rfl rfl rfl rfl rfl rfl (by decide) (by decide) rfl (by decide)
    exact h.2 (by decide)

/-- Cancelling all orders nulls both pending ids and keeps the status. -/
lemma cancel_all_orders_fields (p : StrategyParams) (st : StrategyState) :
    (cancel_all_orders p st).pair.bybit_order_id = none
    ∧ (cancel_all_orders p st).pair.binance_order_id = none
    ∧ (cancel_all_orders p st).pair.status = st.pair.status := by
  unfold cancel_all_orders
  cases h1 : st.pair.bybit_order_id <;> cases h2 : st.pair.binance_order_id <;>
    simp [h1, h2]

/-- An open attempt either ends in OPENING or leaves the pair exactly as
it was (risk denial). -/
lemma execute_open_positive_cases (p : StrategyParams) (now today : Nat)
    (st st' : StrategyState) (h : execute_open_positive p now today st = .ok st') :
    st'.pair.status = .opening ∨ st'.pair = st.pair := by
  simp only [execute_open_positive] at h
  split at h
  · cases h; exact Or.inr rfl
  · split at h
    · cases h; exact Or.inr rfl
    · split at h
      · cases h; exact Or.inl rfl
      · cases h

/-- Mirror of `execute_open_positive_cases` for the negative direction. -/
lemma execute_open_negative_cases (p : StrategyParams) (now today : Nat)
    (st st' : StrategyState) (h : execute_open_negative p now today st = .ok st') :
    st'.pair.status = .opening ∨ st'.pair = st.pair := by
  simp only [execute_open_negative] at h
  split at h
  · cases h; exact Or.inr rfl
  · split at h
    · cases h; exact Or.inr rfl
    · split at h
      · cases h; exact Or.inl rfl
      · cases h

/-- A successful close submission always ends in CLOSING. -/
lemma execute_close_positive_status (p : StrategyParams) (now : Nat)
    (st st' : StrategyState) (h : execute_close_positive p now st = .ok st') :
    st'.pair.status = .closing := by
  simp only [execute_close_positive] at h
  split at h
  · cases h; rfl
  · cases h

/-- A successful close submission always ends in CLOSING. -/
lemma execute_close_negative_status (p : StrategyParams) (now : Nat)
    (st st' : StrategyState) (h : execute_close_negative p now st = .ok st') :
    st'.pair.status = .closing := by
  simp only [execute_close_negative] at h
  split at h
  · cases h; rfl
  · cases h

/-- Chasing never changes the status. -/
lemma execute_chase_order_status (p : StrategyParams) (platform : String)
    (now today : Nat) (st : StrategyState) :
    (execute_chase_order p platform now today st).pair.status = st.pair.status := by
  simp only [execute_chase_order]
  split
  · rfl
  · have hc := (cancel_all_orders_fields p
      { st with rm := (st.rm.check_chase_order now today p.strategy_id
          ((st.pair.chase_order_count : Int) + 1)).2 }).2.2
    (repeat' split) <;> simp [hc]

/-- Timeout handling preserves the order-id invariant provided the pair
was not IDLE going in (which the `_check_conditions` dispatch
guarantees). -/
lemma handle_trade_timeout_inv (p : StrategyParams) (now today : Nat)
    (st : StrategyState) (hne : st.pair.status ≠ .idle) :
    OrderIdInv (handle_trade_timeout p now today st) := by
  unfold handle_trade_timeout
  split
  · intro h
    rw [execute_chase_order_status] at h
    exact absurd h hne
  · split
    · intro h
      rw [execute_chase_order_status] at h
      exact absurd h hne
    · split
      · intro h
        exact ⟨(cancel_all_orders_fields p st).1, (cancel_all_orders_fields p st).2.1⟩
      · intro h
        exact absurd h hne

/-- The `_check_trade_timeout` wrapper preserves the order-id invariant
when entered from OPENING or CLOSING. -/
lemma check_trade_timeout_inv (p : StrategyParams) (now today : Nat)
    (st : StrategyState)
    (hst : st.pair.status = .opening ∨ st.pair.status = .closing) :
    OrderIdInv (check_trade_timeout p now today st) := by
  have hne : st.pair.status ≠ .idle := by
    rcases hst with h | h <;> simp [h]
  unfold check_trade_timeout
  (repeat' split) <;>
    first
    | exact handle_trade_timeout_inv p now today st hne
    | exact fun h => absurd h hne

/-- The fill bookkeeping never touches the order ids and never moves the
status to IDLE. -/
lemma check_both_filled_ids (p : StrategyParams) (now today : Nat)
    (st : StrategyState) :
    (check_both_filled p now today st).pair.bybit_order_id = st.pair.bybit_order_id
    ∧ (check_both_filled p now today st).pair.binance_order_id = st.pair.binance_order_id
    ∧ ((check_both_filled p now today st).pair.status = .idle →
        st.pair.status = .idle) := by
  unfold check_both_filled
  (repeat' split) <;> simp_all

/-- The fill bookkeeping preserves the order-id invariant. -/
lemma check_both_filled_inv (p : StrategyParams) (now today : Nat)
    (st : StrategyState) (hInv : OrderIdInv st) :
    OrderIdInv (check_both_filled p now today st) := by
  intro h
  obtain ⟨hb, hn, hs⟩ := check_both_filled_ids p now today st
  rw [hb, hn]
  exact hInv (hs h)

/-- The fill callback preserves the order-id invariant. -/
lemma on_trade_inv (p : StrategyParams) (platform : String) (pos : Option ℚ)
    (now today : Nat) (st : StrategyState) (hInv : OrderIdInv st) :
    OrderIdInv (on_trade p platform pos now today st) := by
  unfold on_trade
  apply check_both_filled_inv
  split_ifs <;> exact hInv

/-- Opening dispatch: OPENING on success, otherwise the pair untouched. -/
lemma check_open_conditions_cases (p : StrategyParams) (now today : Nat)
    (st st' : StrategyState) (h : check_open_conditions p now today st = .ok st') :
    st'.pair.status = .opening ∨ st'.pair = st.pair := by
  unfold check_open_conditions at h
  (repeat' split at h) <;>
    first
    | (cases h; exact Or.inr rfl)
    | exact execute_open_positive_cases p now today st st' h
    | exact execute_open_negative_cases p now today st st' h

/-- Closing dispatch: CLOSING on success, otherwise the pair untouched. -/
lemma check_close_conditions_cases (p : StrategyParams) (now : Nat)
    (st st' : StrategyState) (h : check_close_conditions p now st = .ok st') :
    st'.pair.status = .closing ∨ st'.pair = st.pair := by
  unfold check_close_conditions at h
  (repeat' split at h) <;>
    first
    | (cases h; exact Or.inr rfl)
    | exact Or.inl (execute_close_positive_status p now st st' h)
    | exact Or.inl (execute_close_negative_status p now st st' h)

/-- A conditions pass preserves the order-id invariant. -/
lemma check_conditions_inv (p : StrategyParams) (now today : Nat)
    (st st' : StrategyState) (hInv : OrderIdInv st)
    (h : check_conditions p now today st = .ok st') : OrderIdInv st' := by
  have hpair : ∀ st'' : StrategyState, st''.pair = st.pair → OrderIdInv st'' := by
    intro st'' he hid
    rw [he] at hid ⊢
    exact hInv hid
  unfold check_conditions at h
  split at h
  · cases h; exact hInv
  · split at h
    · rcases check_open_conditions_cases p now today st st' h with ho | ho
      · intro hid; rw [ho] at hid; cases hid
      · exact hpair st' ho
    · split at h
      · rcases check_close_conditions_cases p now st st' h with ho | ho
        · intro hid; rw [ho] at hid; cases hid
        · exact hpair st' ho
      · split at h
        · cases h
          apply check_trade_timeout_inv p now today st
          assumption
        · cases h; exact hInv

/-- C9 (amended).  Along every run of the strategy's operations (tick
conditioned opens, closes and timeout/chase handling, fill callbacks,
reset) starting from a state where IDLE implies no pending ids, the
order ids are null whenever the status is IDLE.  (The original claim — ids
non-null ONLY in OPENING or CLOSING — fails: the OPENING → OPENED and
CLOSING → CLOSED transitions never clear the ids, see the
counterexample.) -/
theorem C9_idle_ids_invariant (p : StrategyParams) (s0 s : StrategyState)
    (h0 : OrderIdInv s0) (hr : Reach p s0 s) : OrderIdInv s := by
  induction hr with
  | refl => exact h0
  | tail b c hab hstep ih =>
    cases hstep with
    | conditions now today st st' h => exact check_conditions_inv p now today b c ih h
    | trade platform pos now today => exact on_trade_inv p platform pos now today b ih
    | reset => intro h; exact ⟨rfl, rfl⟩

/-- Parameters used by the C9 scenario. -/
def C9params : StrategyParams := ⟨"S", "A", "B", 1, 1, 2, 5, 3⟩

/-- An IDLE start state satisfying even the claimed invariant: no pending
ids, a valid snapshot whose positive spread (4) is above the open
threshold (1). -/
def C9start : StrategyState :=
  ⟨{ ArbitragePair.init with
       spread_data := ⟨some 100, some 103, some 99, some 101, some 4, some 1, some 1⟩ },
   ⟨[], true, [], 100⟩, ExecState.init⟩

/-- Extract the success state of a conditions pass (default otherwise). -/
def exceptOk (d : StrategyState) : Except String StrategyState → StrategyState
  | .ok s => s
  | .error _ => d

/-- The state after the open fires from `C9start`. -/
def C9opening : StrategyState :=
  exceptOk C9start (check_conditions C9params 0 0 C9start)

/-- The state after both legs then report filled. -/
def C9opened : StrategyState :=
  on_trade C9params "binance" (some 2) 2 0
    (on_trade C9params "bybit" (some (-2)) 1 0 C9opening)

/-- C9 (counterexample).  The claim says pending order ids are non-null
only while OPENING or CLOSING.  From an IDLE state with no ids, open
(ids 1 and 2 issued, OPENING) followed by both fills reaches OPENED with
both order ids still set: `_check_both_filled` never clears them. -/
theorem C9_counterexample :
    OrderIdInv C9start
    ∧ Reach C9params C9start C9opened
    ∧ C9opened.pair.status = .opened
    ∧ C9opened.pair.bybit_order_id = some 1
    ∧ C9opened.pair.binance_order_id = some 2 := by
  refine ⟨fun h => ⟨rfl, rfl⟩, ?_, by decide, by decide, by decide⟩
  exact Reach.tail _ _ _
    (Reach.tail _ _ _
      (Reach.tail _ _ _ (Reach.refl C9start)
        (Step.conditions 0 0 C9start C9opening rfl))
      (Step.trade "bybit" (some (-2)) 1 0 C9opening))
    (Step.trade "binance" (some 2) 2 0 _)

/-- C9 (witness) for the amended invariant, instantiated along the
concrete trace of the counterexample scenario. -/
theorem C9_witness : OrderIdInv C9opened :=
  C9_idle_ids_invariant C9params C9start C9opened (fun _ => ⟨rfl, rfl⟩)
    (Reach.tail _ _ _
      (Reach.tail _ _ _
        (Reach.tail _ _ _ (Reach.refl C9start)
          (Step.conditions 0 0 C9start C9opening rfl))
        (Step.trade "bybit" (some (-2)) 1 0 C9opening))
      (Step.trade "binance" (some 2) 2 0 _))

/-- C1 (bug witness).  The claim says a tick updates only that venue's
quotes in the snapshot and recomputes both spreads.  In the code
`_process_bybit_tick` / `_process_binance_tick` pass the `SpreadData`
object itself where `update` expects a dict, so every tick raises
`AttributeError` (`SpreadData` has no `get`): a bybit tick overwrites the
two bybit quotes and then raises with both spreads left stale; a binance
tick raises before mutating anything; `update_tick` propagates the
exception and never reaches `_check_conditions`. -/
theorem C1_tick_processing_raises :
    process_bybit_tick ⟨none, none, some 99, some 101, some 7, some 8, some 5⟩
        ⟨some 100, some 103⟩ 9
      = (⟨some 100, some 103, some 99, some 101, some 7, some 8, some 5⟩,
         some "AttributeError: SpreadData object has no attribute get")
    ∧ process_binance_tick ⟨none, none, some 99, some 101, some 7, some 8, some 5⟩
        ⟨some 100, some 103⟩ 9
      = (⟨none, none, some 99, some 101, some 7, some 8, some 5⟩,
         some "AttributeError: SpreadData object has no attribute get")
    ∧ (update_tick ⟨"S", "A", "B", 1, 1, 2, 5, 3⟩ "bybit" ⟨some 100, some 103⟩ 9 0 true true
        ⟨{ ArbitragePair.init with
             spread_data := ⟨none, none, some 99, some 101, some 7, some 8, some 5⟩ },
          RiskManager.init, ExecState.init⟩).2
      = some "AttributeError: SpreadData object has no attribute get"
    ∧ (update_tick ⟨"S", "A", "B", 1, 1, 2, 5, 3⟩ "bybit" ⟨some 100, some 103⟩ 9 0 true true
        ⟨{ ArbitragePair.init with
             spread_data := ⟨none, none, some 99, some 101, some 7, some 8, some 5⟩ },
          RiskManager.init, ExecState.init⟩).1.pair.spread_data.spread_positive
      = some 7 := by
  refine ⟨by decide, by decide, rfl, rfl⟩

end Hustle
